import Mathlib

/-!
Shallow embedding of the scoring/screening/aggregation engine of
`trading_system.py` (class `TradingSystem`).

Python floats are modelled as rationals (`ℚ`); dictionaries of metric values
as a structure with one field per key (a missing key defaults to `0` in the
source via `dict.get(k, 0)`, so a snapshot built from an empty dict is the
all-zero record); score-breakdown dicts as association lists built in the
source's insertion order.
-/

/-- `TradingSystem.__init__`: `self.min_market_cap = 1000000000`. -/
def min_market_cap : ℚ := 1000000000

/-- `TradingSystem.__init__`: `self.min_volume = 1000000`. -/
def min_volume : ℚ := 1000000

/-- The fundamentals snapshot assembled by `get_fundamental_data` (string
fields `sector`/`industry` are never read by the scorer and are omitted;
every numeric field defaults to `0` when the upstream dict lacks the key). -/
structure FundamentalMetrics where
  market_cap : ℚ := 0
  pe_ratio : ℚ := 0
  forward_pe : ℚ := 0
  price_to_book : ℚ := 0
  debt_to_equity : ℚ := 0
  current_ratio : ℚ := 0
  roe : ℚ := 0
  roa : ℚ := 0
  profit_margins : ℚ := 0
  revenue_growth : ℚ := 0
  earnings_growth : ℚ := 0
  beta : ℚ := 0
  dividend_yield : ℚ := 0
  volume : ℚ := 0
  avg_volume : ℚ := 0
deriving DecidableEq

/-- `TradingSystem._score_pe_ratio`. -/
def score_pe_ratio (pe_ratio : ℚ) : ℚ :=
  if pe_ratio ≤ 0 ∨ pe_ratio > 100 then 0
  else if pe_ratio ≤ 15 then 100
  else if pe_ratio ≤ 25 then 80
  else if pe_ratio ≤ 35 then 60
  else if pe_ratio ≤ 50 then 40
  else 20

/-- `TradingSystem._score_price_to_book`. -/
def score_price_to_book (pb_ratio : ℚ) : ℚ :=
  if pb_ratio ≤ 0 ∨ pb_ratio > 10 then 0
  else if pb_ratio ≤ 1 then 100
  else if pb_ratio ≤ 2 then 80
  else if pb_ratio ≤ 3 then 60
  else if pb_ratio ≤ 5 then 40
  else 20

/-- `TradingSystem._score_debt_to_equity`. -/
def score_debt_to_equity (debt_equity : ℚ) : ℚ :=
  if debt_equity < 0 then 0
  else if debt_equity ≤ 3/10 then 100
  else if debt_equity ≤ 5/10 then 80
  else if debt_equity ≤ 1 then 60
  else if debt_equity ≤ 2 then 40
  else 20

/-- `TradingSystem._score_current_ratio`. -/
def score_current_ratio (current_ratio : ℚ) : ℚ :=
  if current_ratio ≤ 0 then 0
  else if current_ratio ≥ 2 then 100
  else if current_ratio ≥ 3/2 then 80
  else if current_ratio ≥ 1 then 60
  else 20

/-- `TradingSystem._score_roe`. -/
def score_roe (roe : ℚ) : ℚ :=
  if roe ≤ 0 then 0
  else if roe ≥ 20/100 then 100
  else if roe ≥ 15/100 then 80
  else if roe ≥ 10/100 then 60
  else if roe ≥ 5/100 then 40
  else 20

/-- `TradingSystem._score_roa`. -/
def score_roa (roa : ℚ) : ℚ :=
  if roa ≤ 0 then 0
  else if roa ≥ 10/100 then 100
  else if roa ≥ 7/100 then 80
  else if roa ≥ 5/100 then 60
  else if roa ≥ 3/100 then 40
  else 20

/-- `TradingSystem._score_profit_margin`. -/
def score_profit_margin (margin : ℚ) : ℚ :=
  if margin ≤ 0 then 0
  else if margin ≥ 20/100 then 100
  else if margin ≥ 15/100 then 80
  else if margin ≥ 10/100 then 60
  else if margin ≥ 5/100 then 40
  else 20

/-- `TradingSystem._score_growth`. -/
def score_growth (growth_rate : ℚ) : ℚ :=
  if growth_rate ≤ 0 then 0
  else if growth_rate ≥ 20/100 then 100
  else if growth_rate ≥ 15/100 then 80
  else if growth_rate ≥ 10/100 then 60
  else if growth_rate ≥ 5/100 then 40
  else 20

/-- `TradingSystem._score_beta`. -/
def score_beta (beta : ℚ) : ℚ :=
  if beta ≤ 0 then 50
  else if 8/10 ≤ beta ∧ beta ≤ 12/10 then 100
  else if 6/10 ≤ beta ∧ beta ≤ 14/10 then 80
  else if 4/10 ≤ beta ∧ beta ≤ 16/10 then 60
  else 40

/-- `TradingSystem.fundamental_score`: the weighted category total (capped at
100 by `min(score, 100)`) together with the `scores` breakdown dict, as the
association list `[("valuation", …), ("financial_health", …),
("profitability", …), ("growth", …), ("risk", …)]` in insertion order.
The weights dict is `{'valuation': .25, 'financial_health': .25,
'profitability': .25, 'growth': .15, 'risk': .10}`; no line of the body can
raise, so the `except` path is dead. -/
def fundamental_score (d : FundamentalMetrics) : ℚ × List (String × ℚ) :=
  let valuation_score :=
    (score_pe_ratio d.pe_ratio + score_price_to_book d.price_to_book) / 2 * (25/100)
  let health_score :=
    (score_debt_to_equity d.debt_to_equity + score_current_ratio d.current_ratio) / 2 * (25/100)
  let profitability_score :=
    (score_roe d.roe + score_roa d.roa + score_profit_margin d.profit_margins) / 3 * (25/100)
  let growth_score :=
    (score_growth d.revenue_growth + score_growth d.earnings_growth) / 2 * (15/100)
  let risk_score := score_beta d.beta * (10/100)
  let score := valuation_score + health_score + profitability_score + growth_score + risk_score
  (min score 100,
    [("valuation", valuation_score), ("financial_health", health_score),
     ("profitability", profitability_score), ("growth", growth_score),
     ("risk", risk_score)])

/-- The snapshot `get_fundamental_data` builds when every metric is zero
(also what an empty upstream dict defaults to). -/
def zeroMetrics : FundamentalMetrics := {}

/-! ### The technical side

A row of the indicator-extended data frame built by
`calculate_technical_indicators`.  The indicator columns themselves are
produced by the external `ta` library (outside the engine under analysis);
the technical scorer only ever reads the per-row values below, so a frame is
modelled as a list of rows carrying those values.  A pandas frame also has
an index: in this model the index label of a row is its position, which
keeps exactly the property the scorer's series arithmetic depends on — the
labels of two slices taken at different offsets never coincide (true as well
of the strictly increasing date index of real data). -/
structure Row where
  close : ℚ := 0
  high : ℚ := 0
  low : ℚ := 0
  volume : ℚ := 0
  sma_20 : ℚ := 0
  sma_50 : ℚ := 0
  rsi : ℚ := 0
  macd : ℚ := 0
  macd_signal : ℚ := 0
  bb_position : ℚ := 0
  obv : ℚ := 0
  atr : ℚ := 0
deriving DecidableEq

def rowDefault : Row := {}

/-- The `Close` column as a labelled pandas Series: (index label, value). -/
def closeSeries (f : List Row) : List (ℕ × ℚ) :=
  f.enum.map (fun p => (p.1, p.2.close))

/-- `series.iloc[-5:]`: the last five entries, labels kept. -/
def iloc_last5 (s : List (ℕ × ℚ)) : List (ℕ × ℚ) :=
  s.drop (s.length - 5)

/-- `series.iloc[-10:-5]`: entries at positions `len-10 … len-6`, labels kept. -/
def iloc_m10_m5 (s : List (ℕ × ℚ)) : List (ℕ × ℚ) :=
  (s.drop (s.length - 10)).take 5

/-- `(a > b).sum()` on two pandas Series: comparison operators on Series
align on index labels and raise
`ValueError: Can only compare identically-labeled Series objects`
whenever the two label sequences differ; on identical labels the result is
the count of positions where the left value is strictly greater. -/
def seriesGtSum (a b : List (ℕ × ℚ)) : Except String ℚ :=
  if a.map Prod.fst = b.map Prod.fst then
    .ok ((a.zip b).countP (fun p => decide (p.2.2 < p.1.2)) : ℕ)
  else .error "Can only compare identically-labeled Series objects"

/-- `TradingSystem._calculate_trend_score`.  The three moving-average
comparisons add 20 points each; the trend-consistency line then evaluates
`(data['Close'].iloc[-5:] > data['Close'].iloc[-10:-5]).sum()`, whose
outcome (value or `ValueError`) the `Except` carries to the caller. -/
def calculate_trend_score (f : List Row) : Except String ℚ :=
  if f.length < 50 then .ok 0
  else
    let current_price := (f.getLastD rowDefault).close
    let sma_20 := (f.getLastD rowDefault).sma_20
    let sma_50 := (f.getLastD rowDefault).sma_50
    let base := (if current_price > sma_20 then (20:ℚ) else 0)
      + (if current_price > sma_50 then 20 else 0)
      + (if sma_20 > sma_50 then 20 else 0)
    match seriesGtSum (iloc_last5 (closeSeries f)) (iloc_m10_m5 (closeSeries f)) with
    | .error e => .error e
    | .ok recent_trend => .ok (base + recent_trend / 5 * 40)

/-- `TradingSystem._calculate_momentum_score`. -/
def calculate_momentum_score (f : List Row) : ℚ :=
  if f.length < 14 then 0
  else
    let r := f.getLastD rowDefault
    (if 30 ≤ r.rsi ∧ r.rsi ≤ 70 then (25:ℚ)
     else if r.rsi < 30 then 15
     else if r.rsi > 70 then 10 else 0)
    + (if r.macd > r.macd_signal then 25 else 0)
    + (if r.macd > 0 then 25 else 0)

/-- `TradingSystem._calculate_volatility_score`.  `avg_atr` is
`data['ATR'].rolling(14).mean().iloc[-1]`, the mean of the last 14 ATR
values.  Rational division is total (`x / 0 = 0`), which, like the float
`inf`/`nan` the source produces when `avg_atr` is zero, falsifies the
`0.5 ≤ atr/avg_atr ≤ 1.5` test. -/
def calculate_volatility_score (f : List Row) : ℚ :=
  if f.length < 14 then 0
  else
    let r := f.getLastD rowDefault
    let avg_atr := ((f.drop (f.length - 14)).map Row.atr).sum / 14
    (if 2/10 ≤ r.bb_position ∧ r.bb_position ≤ 8/10 then (50:ℚ)
     else if r.bb_position < 2/10 then 30
     else if r.bb_position > 8/10 then 20 else 0)
    + (if 5/10 ≤ r.atr / avg_atr ∧ r.atr / avg_atr ≤ 15/10 then 50 else 25)

/-- Consecutive percentage changes, `series.pct_change()` without its
leading NaN (which `.mean()` skips). -/
def pctChanges : List ℚ → List ℚ
  | a :: b :: rest => (b - a) / a :: pctChanges (b :: rest)
  | _ => []

/-- `TradingSystem._calculate_volume_score`.  `obv_trend` is the mean of the
percentage changes over the last five OBV values (`.mean()` over an empty
or NaN-only series is NaN, which falsifies `obv_trend > 0` exactly as the
total rational division `0 / 0 = 0` does). -/
def calculate_volume_score (f : List Row) : ℚ :=
  if f.length < 20 then 0
  else
    let r := f.getLastD rowDefault
    let avg_volume := ((f.drop (f.length - 20)).map Row.volume).sum / 20
    let chs := pctChanges ((f.drop (f.length - 5)).map Row.obv)
    let obv_trend := chs.sum / chs.length
    (if r.volume > avg_volume * (12/10) then (50:ℚ)
     else if r.volume > avg_volume then 30 else 10)
    + (if obv_trend > 0 then 50 else 20)

/-- Minimum of a list, seeded by its head (`Series.min()` of a nonempty
series; the callers only apply it to nonempty slices). -/
def listMin : List ℚ → ℚ
  | [] => 0
  | x :: xs => xs.foldl min x

/-- Maximum of a list, seeded by its head. -/
def listMax : List ℚ → ℚ
  | [] => 0
  | x :: xs => xs.foldl max x

/-- `TradingSystem._calculate_support_resistance_score`. -/
def calculate_support_resistance_score (f : List Row) : ℚ :=
  if f.length < 20 then 0
  else
    let r := f.getLastD rowDefault
    let recent_low := listMin ((f.drop (f.length - 20)).map Row.low)
    let recent_high := listMax ((f.drop (f.length - 20)).map Row.high)
    let support_distance := (r.close - recent_low) / r.close
    let resistance_distance := (recent_high - r.close) / r.close
    if support_distance < 5/100 then 50
    else if resistance_distance < 5/100 then 30
    else 20

/-- `TradingSystem.technical_score`: requires at least 50 bars, else
`(0, {})`.  The category blocks run inside one `try`: the trend block runs
first and its Series comparison is the only raising operation in the body,
so a `ValueError` there leaves `score = 0` and `scores = {}` and the
function returns `(min(0, 100), {})`.  The breakdown dict is the
association list in insertion order. -/
def technical_score (f : List Row) : ℚ × List (String × ℚ) :=
  if f.length < 50 then (0, [])
  else
    match calculate_trend_score f with
    | .error _ => (min (0:ℚ) 100, [])
    | .ok t =>
      let trend_score := t * (30/100)
      let momentum_score := calculate_momentum_score f * (25/100)
      let volatility_score := calculate_volatility_score f * (20/100)
      let volume_score := calculate_volume_score f * (15/100)
      let sr_score := calculate_support_resistance_score f * (10/100)
      (min (trend_score + momentum_score + volatility_score + volume_score + sr_score) 100,
        [("trend", trend_score), ("momentum", momentum_score),
         ("volatility", volatility_score), ("volume", volume_score),
         ("support_resistance", sr_score)])

/-- A trading signal dict from `generate_signals`. -/
structure Signal where
  type : String
  indicator : String
  strength : String
  reason : String
deriving DecidableEq

/-- `TradingSystem.generate_signals`: empty list under 50 bars, then at most
one signal per indicator block, appended in source order RSI, MACD,
Bollinger Bands. -/
def generate_signals (f : List Row) : List Signal :=
  if f.length < 50 then []
  else
    let r := f.getLastD rowDefault
    (if r.rsi < 30 then [⟨"BUY", "RSI", "Strong", "Oversold condition"⟩]
     else if r.rsi > 70 then [⟨"SELL", "RSI", "Strong", "Overbought condition"⟩]
     else [])
    ++ (if r.macd > r.macd_signal ∧ r.macd < 0 then
          [⟨"BUY", "MACD", "Medium", "MACD crossover above signal line"⟩]
        else if r.macd < r.macd_signal ∧ r.macd > 0 then
          [⟨"SELL", "MACD", "Medium", "MACD crossover below signal line"⟩]
        else [])
    ++ (if r.bb_position < 2/10 then
          [⟨"BUY", "Bollinger Bands", "Medium", "Price near lower band"⟩]
        else if r.bb_position > 8/10 then
          [⟨"SELL", "Bollinger Bands", "Medium", "Price near upper band"⟩]
        else [])

/-- The recommendation ladder of `analyze_stock` (lines 521–530). -/
def recommendation_of (overall : ℚ) : String :=
  if overall ≥ 80 then "STRONG_BUY"
  else if overall ≥ 70 then "BUY"
  else if overall ≥ 50 then "HOLD"
  else if overall ≥ 30 then "SELL"
  else "STRONG_SELL"

/-- The analysis dict `analyze_stock` returns (the raw
`technical_data` frame entry is not repeated here; `fundamental_data` is
kept because the screener filters on it). -/
structure StockAnalysis where
  symbol : String
  fundamental_data : FundamentalMetrics
  fundamental_score : ℚ
  technical_score : ℚ
  overall_score : ℚ
  recommendation : String
  signals : List Signal
deriving DecidableEq

/-- `TradingSystem.analyze_stock`.  The two fetches are the Data-Provider
collaborators (`get_fundamental_data`, `get_stock_data`), passed here as the
already-fetched values.  An empty price frame skips the whole scoring block,
leaving the zero-valued defaults set at the top of the function; otherwise
`overall = 0.6·fundamental + 0.4·technical` and the recommendation ladder
runs on it. -/
def analyze_stock (symbol : String) (fund : FundamentalMetrics)
    (bars : List Row) : StockAnalysis :=
  if bars.isEmpty then
    { symbol := symbol, fundamental_data := fund, fundamental_score := 0,
      technical_score := 0, overall_score := 0, recommendation := "HOLD",
      signals := [] }
  else
    let fs := (fundamental_score fund).1
    let ts := (technical_score bars).1
    let overall := fs * (6/10) + ts * (4/10)
    { symbol := symbol, fundamental_data := fund, fundamental_score := fs,
      technical_score := ts, overall_score := overall,
      recommendation := recommendation_of overall,
      signals := generate_signals bars }

/-- The screening filter of `screen_stocks`: `market_cap ≥ min_market_cap and
volume ≥ min_volume and overall_score ≥ 60`. -/
def passesScreen (a : StockAnalysis) : Bool :=
  decide (min_market_cap ≤ a.fundamental_data.market_cap)
  && decide (min_volume ≤ a.fundamental_data.volume)
  && decide ((60:ℚ) ≤ a.overall_score)

/-- `screened_stocks.sort(key=lambda x: x['overall_score'], reverse=True)`
sorts by descending overall score; Python's sort is stable. -/
def byScoreDesc (a b : StockAnalysis) : Prop :=
  b.overall_score ≤ a.overall_score

instance : DecidableRel byScoreDesc :=
  fun a b => inferInstanceAs (Decidable (b.overall_score ≤ a.overall_score))

instance : IsTotal StockAnalysis byScoreDesc :=
  ⟨fun a b => le_total b.overall_score a.overall_score⟩

instance : IsTrans StockAnalysis byScoreDesc :=
  ⟨fun _ _ _ h1 h2 => le_trans h2 h1⟩

/-- `TradingSystem.screen_stocks`: analyze each symbol in input order, keep
the analyses passing the filter, and stable-sort the kept list by descending
overall score (`List.insertionSort byScoreDesc` is that stable sort, placing
each earlier-input element before the later-input elements of equal score,
exactly as Python's stable `list.sort(..., reverse=True)` does).  In this
embedding `analyze_stock` is total, so the per-symbol `except … continue`
path is dead. -/
def screen_stocks (fundOf : String → FundamentalMetrics)
    (barsOf : String → List Row) (symbols : List String) : List StockAnalysis :=
  ((symbols.map (fun s => analyze_stock s (fundOf s) (barsOf s))).filter
    passesScreen).insertionSort byScoreDesc

/-- `generate_portfolio_recommendations`, allocation loop: raw weight of the
rank-`i` sector (0-indexed) is `max(0.05, 0.15 - i * 0.01)`. -/
def raw_weight (i : ℕ) : ℚ := max (5/100) (15/100 - i * (1/100))

/-- `sorted(sector_scores.items(), key=lambda x: x[1], reverse=True)`:
stable descending sort of (sector, momentum) pairs by momentum. -/
def byMomentumDesc (a b : String × ℚ) : Prop := b.2 ≤ a.2

instance : DecidableRel byMomentumDesc :=
  fun a b => inferInstanceAs (Decidable (b.2 ≤ a.2))

instance : IsTotal (String × ℚ) byMomentumDesc := ⟨fun a b => le_total b.2 a.2⟩

instance : IsTrans (String × ℚ) byMomentumDesc := ⟨fun _ _ _ h1 h2 => le_trans h2 h1⟩

/-- The `sector_allocation` portion of
`TradingSystem.generate_portfolio_recommendations` (lines 669–686): rank the
`(sector, momentum)` pairs of `sector_analysis` (a dict, so sector names are
distinct) by momentum descending, give rank `i` the raw weight
`max(0.05, 0.15 - i*0.01)` while accumulating `total_weight`, then divide
every weight by `total_weight`. -/
def sector_allocation (sector_scores : List (String × ℚ)) : List (String × ℚ) :=
  let sorted_sectors := sector_scores.insertionSort byMomentumDesc
  let raw := sorted_sectors.enum.map (fun p => (p.2.1, raw_weight p.1))
  let total_weight := (raw.map Prod.snd).sum
  raw.map (fun p => (p.1, p.2 / total_weight))

open List

/-! ### Shared helper lemmas -/

lemma score_pe_ratio_nonneg (x : ℚ) : 0 ≤ score_pe_ratio x := by
  unfold score_pe_ratio; split_ifs <;> norm_num

lemma score_price_to_book_nonneg (x : ℚ) : 0 ≤ score_price_to_book x := by
  unfold score_price_to_book; split_ifs <;> norm_num

lemma score_debt_to_equity_nonneg (x : ℚ) : 0 ≤ score_debt_to_equity x := by
  unfold score_debt_to_equity; split_ifs <;> norm_num

lemma score_current_ratio_nonneg (x : ℚ) : 0 ≤ score_current_ratio x := by
  unfold score_current_ratio; split_ifs <;> norm_num

lemma score_roe_nonneg (x : ℚ) : 0 ≤ score_roe x := by
  unfold score_roe; split_ifs <;> norm_num

lemma score_roa_nonneg (x : ℚ) : 0 ≤ score_roa x := by
  unfold score_roa; split_ifs <;> norm_num

lemma score_profit_margin_nonneg (x : ℚ) : 0 ≤ score_profit_margin x := by
  unfold score_profit_margin; split_ifs <;> norm_num

lemma score_growth_nonneg (x : ℚ) : 0 ≤ score_growth x := by
  unfold score_growth; split_ifs <;> norm_num

/-- Every branch of the beta bucket pays at least 40 points. -/
lemma score_beta_ge_40 (x : ℚ) : 40 ≤ score_beta x := by
  unfold score_beta; split_ifs <;> norm_num

/-- The ROE bucket is monotone non-decreasing. -/
lemma score_roe_mono {r1 r2 : ℚ} (h : r1 ≤ r2) : score_roe r1 ≤ score_roe r2 := by
  unfold score_roe
  split_ifs <;> linarith

/-! ### The claims -/

/-- C1 (counterexample): on the all-zero metrics snapshot the fundamental
total is not 5.0. -/
theorem C1_all_zero_total_ne_five : (fundamental_score zeroMetrics).1 ≠ 5 := by
  norm_num [fundamental_score, zeroMetrics, score_pe_ratio, score_price_to_book,
    score_debt_to_equity, score_current_ratio, score_roe, score_roa,
    score_profit_margin, score_growth, score_beta]

/-- C1 (amended): on the all-zero metrics snapshot the fundamental total is
17.5: the beta bucket contributes 50 × 0.10 = 5 to the risk category as the
claim states, but the financial-health category contributes
(100 + 0)/2 × 0.25 = 12.5 as well, because debt-to-equity 0 falls in the
`≤ 0.3 → 100` bucket (only negative debt-to-equity scores 0); the other
three categories contribute 0. -/
theorem C1_all_zero_total_amended :
    (fundamental_score zeroMetrics).1 = 35/2
    ∧ (fundamental_score zeroMetrics).2
      = [("valuation", 0), ("financial_health", 25/2), ("profitability", 0),
         ("growth", 0), ("risk", 5)] := by
  constructor <;>
    norm_num [fundamental_score, zeroMetrics, score_pe_ratio, score_price_to_book,
      score_debt_to_equity, score_current_ratio, score_roe, score_roa,
      score_profit_margin, score_growth, score_beta]

/-- C3: on an empty fetched price history, `analyze_stock` returns the
zero-valued analysis — overall score 0, recommendation HOLD, no signals —
for every symbol and every fundamentals snapshot (the embedding is a total
function, so no error reaches the caller). -/
theorem C3_empty_history_zero_result :
    ∀ (symbol : String) (fund : FundamentalMetrics),
      (analyze_stock symbol fund []).overall_score = 0
      ∧ (analyze_stock symbol fund []).recommendation = "HOLD"
      ∧ (analyze_stock symbol fund []).signals = [] := by
  intro symbol fund
  exact ⟨rfl, rfl, rfl⟩

/-- C4: the recommendation is the inclusive-lower-bound ladder on the
overall score — ≥80 STRONG_BUY, ≥70 BUY, ≥50 HOLD, ≥30 SELL, else
STRONG_SELL — including the listed boundary values, and on every non-empty
price series the analysis' recommendation is exactly that ladder applied to
its own overall score. -/
theorem C4_recommendation_ladder :
    (∀ x : ℚ, 80 ≤ x → recommendation_of x = "STRONG_BUY")
    ∧ (∀ x : ℚ, 70 ≤ x → x < 80 → recommendation_of x = "BUY")
    ∧ (∀ x : ℚ, 50 ≤ x → x < 70 → recommendation_of x = "HOLD")
    ∧ (∀ x : ℚ, 30 ≤ x → x < 50 → recommendation_of x = "SELL")
    ∧ (∀ x : ℚ, x < 30 → recommendation_of x = "STRONG_SELL")
    ∧ recommendation_of 80 = "STRONG_BUY"
    ∧ recommendation_of (79999/1000) = "BUY"
    ∧ recommendation_of 70 = "BUY"
    ∧ recommendation_of (49999/1000) = "SELL"
    ∧ recommendation_of 30 = "SELL"
    ∧ recommendation_of (29999/1000) = "STRONG_SELL"
    ∧ ∀ (symbol : String) (fund : FundamentalMetrics) (bars : List Row),
        bars ≠ [] →
        (analyze_stock symbol fund bars).recommendation
          = recommendation_of (analyze_stock symbol fund bars).overall_score := by
  refine ⟨?_, ?_, ?_, ?_, ?_, ?_, ?_, ?_, ?_, ?_, ?_, ?_⟩
  · intro x h; unfold recommendation_of; split_ifs <;> first | rfl | linarith
  · intro x h h'; unfold recommendation_of; split_ifs <;> first | rfl | linarith
  · intro x h h'; unfold recommendation_of; split_ifs <;> first | rfl | linarith
  · intro x h h'; unfold recommendation_of; split_ifs <;> first | rfl | linarith
  · intro x h; unfold recommendation_of; split_ifs <;> first | rfl | linarith
  · norm_num [recommendation_of]
  · norm_num [recommendation_of]
  · norm_num [recommendation_of]
  · norm_num [recommendation_of]
  · norm_num [recommendation_of]
  · norm_num [recommendation_of]
  · intro symbol fund bars hne
    cases bars with
    | nil => exact absurd rfl hne
    | cons b l => simp [analyze_stock]

/-- C4 witness: the ladder applied at a concrete score. -/
theorem C4_recommendation_ladder_witness : recommendation_of 85 = "STRONG_BUY" :=
  C4_recommendation_ladder.1 85 (by norm_num)

/-- C9: for every metrics snapshot the fundamental total is at least 4 —
the beta bucket never pays less than 40, so the risk category alone
contributes at least 40 × 0.10, every other category being non-negative —
and in particular the fundamental score is never 0. -/
theorem C9_fundamental_score_ge_four :
    ∀ d : FundamentalMetrics,
      4 ≤ (fundamental_score d).1 ∧ (fundamental_score d).1 ≠ 0 := by
  intro d
  have h1 := score_pe_ratio_nonneg d.pe_ratio
  have h2 := score_price_to_book_nonneg d.price_to_book
  have h3 := score_debt_to_equity_nonneg d.debt_to_equity
  have h4 := score_current_ratio_nonneg d.current_ratio
  have h5 := score_roe_nonneg d.roe
  have h6 := score_roa_nonneg d.roa
  have h7 := score_profit_margin_nonneg d.profit_margins
  have h8 := score_growth_nonneg d.revenue_growth
  have h9 := score_growth_nonneg d.earnings_growth
  have hb := score_beta_ge_40 d.beta
  have hge : 4 ≤ (fundamental_score d).1 := by
    simp only [fundamental_score]
    refine le_min (by linarith) (by norm_num)
  exact ⟨hge, by intro h0; rw [h0] at hge; norm_num at hge⟩

/-- C10: the signal list maps, in order, to a sublist of
[RSI, MACD, Bollinger Bands] — hence at most three signals, at most one per
indicator, in that fixed order — and any series shorter than 50 bars yields
the empty list. -/
theorem C10_signal_shape :
    ∀ f : List Row,
      ((generate_signals f).map Signal.indicator).Sublist
        ["RSI", "MACD", "Bollinger Bands"]
      ∧ (generate_signals f).length ≤ 3
      ∧ (f.length < 50 → generate_signals f = []) := by
  intro f
  unfold generate_signals
  by_cases h : f.length < 50
  · simp [h]
  · rw [if_neg h]
    refine ⟨?_, ?_, fun hlt => absurd hlt h⟩ <;>
      (dsimp only; split_ifs <;> decide)

/-- C10 witness: the empty frame (length 0 < 50) yields no signals. -/
theorem C10_signal_shape_witness : generate_signals [] = [] :=
  (C10_signal_shape []).2.2 (by norm_num)

/-- A 50-bar frame with strictly increasing closes 1, 2, …, 50 (every other
column zero): a concrete input on which the trend-consistency comparison of
`_calculate_trend_score` runs. -/
def exRow (i : ℕ) : Row := { close := (i : ℚ) + 1 }

def exFrame : List Row := (List.range 50).map exRow

/-- C2 (the code at the failing input): on the 50-bar frame above — where
the claimed consistency term would be 40 · 5/5 = 40, since every one of the
last five closes exceeds the close five positions earlier — the source's
`data['Close'].iloc[-5:] > data['Close'].iloc[-10:-5]` compares two Series
whose index labels differ (positions 45…49 against 40…44), so pandas raises
`ValueError` instead of counting; `technical_score` catches it with
`score` still `0` and returns `(0, {})`.  No ≥ 50-bar frame avoids this:
the two slices never carry identical labels. -/
theorem C2_trend_consistency_raises :
    calculate_trend_score exFrame
      = .error "Can only compare identically-labeled Series objects"
    ∧ technical_score exFrame = (0, []) := by
  constructor
  · rfl
  · rfl

/-- C8: the fundamental score is monotone non-decreasing in ROE with every
other metric fixed. -/
theorem C8_fundamental_score_mono_roe :
    ∀ (d : FundamentalMetrics) (r1 r2 : ℚ), r1 ≤ r2 →
      (fundamental_score { d with roe := r1 }).1
        ≤ (fundamental_score { d with roe := r2 }).1 := by
  intro d r1 r2 h
  have hm := score_roe_mono h
  simp only [fundamental_score]
  exact min_le_min (by linarith) le_rfl

/-- C8 witness: monotonicity instantiated on the all-zero snapshot at
ROE 0 ≤ ROE 1. -/
theorem C8_fundamental_score_mono_roe_witness :
    (fundamental_score { zeroMetrics with roe := 0 }).1
      ≤ (fundamental_score { zeroMetrics with roe := 1 }).1 :=
  C8_fundamental_score_mono_roe zeroMetrics 0 1 (by norm_num)

lemma sum_map_div (l : List ℚ) (c : ℚ) : (l.map (fun x => x / c)).sum = l.sum / c := by
  induction l with
  | nil => simp
  | cons a t ih => simp [ih, add_div]

lemma raw_weight_pos (i : ℕ) : 0 < raw_weight i :=
  lt_of_lt_of_le (by norm_num) (le_max_left _ _)

/-- A nonempty list of positives, each divided by the list's sum, sums to 1. -/
lemma normalize_sum_eq_one (m : List ℚ) (hne : m ≠ []) (hpos : ∀ x ∈ m, 0 < x) :
    (m.map (fun x => x / m.sum)).sum = 1 := by
  rw [sum_map_div]
  exact div_self (ne_of_gt (List.sum_pos m hpos hne))

/-- C7: for any sector-analysis map with 1 to 11 sectors, the normalized
allocation weights sum to 1 within 1e-9 (in this exact-rational model they
sum to exactly 1: every raw weight is at least 0.05, so the normalizing
total is positive). -/
theorem C7_sector_allocation_sums_to_one :
    ∀ sa : List (String × ℚ), 1 ≤ sa.length → sa.length ≤ 11 →
      |((sector_allocation sa).map Prod.snd).sum - 1| ≤ 1/1000000000 := by
  intro sa h1 _h11
  unfold sector_allocation
  dsimp only
  generalize hL : sa.insertionSort byMomentumDesc = L
  have hLlen : L.length = sa.length := by
    rw [← hL]; exact List.length_insertionSort byMomentumDesc sa
  set g : ℕ × (String × ℚ) → String × ℚ := fun p => (p.2.1, raw_weight p.1) with hg
  set W : List ℚ := L.enum.map (fun p => raw_weight p.1) with hW
  have hWlen : W.length = sa.length := by
    rw [hW, List.length_map, List.enum_length, hLlen]
  have hWne : W ≠ [] := by
    intro h0
    rw [h0] at hWlen
    simp at hWlen
    omega
  have hWpos : ∀ x ∈ W, 0 < x := by
    intro x hx
    rw [hW] at hx
    obtain ⟨p, _, rfl⟩ := List.mem_map.1 hx
    exact raw_weight_pos p.1
  have hT_eq : ((L.enum.map g).map Prod.snd).sum = W.sum := by
    rw [List.map_map, hW]; rfl
  have lhs_eq : ∀ T : ℚ,
      ((L.enum.map g).map (fun p => (p.1, p.2 / T))).map Prod.snd
        = W.map (fun x => x / T) := by
    intro T
    rw [List.map_map, List.map_map, hW, List.map_map]; rfl
  rw [hT_eq, lhs_eq W.sum, normalize_sum_eq_one W hWne hWpos]
  norm_num

/-- C7 witness: three concrete sectors. -/
theorem C7_sector_allocation_sums_to_one_witness :
    |((sector_allocation
        [("Technology", 5), ("Healthcare", 3), ("Energy", 1)]).map Prod.snd).sum - 1|
      ≤ 1/1000000000 :=
  C7_sector_allocation_sums_to_one
    [("Technology", 5), ("Healthcare", 3), ("Energy", 1)]
    (by norm_num) (by norm_num)

/-- C5: the screener's output is sorted by descending overall score, and it
is a stable sort: for every score value, the output's entries of that score
are exactly the passing analyses of that score in input order (the map over
`symbols` preserves the input symbol order, so equal-score results keep
their input relative order). -/
theorem C5_screen_sorted_and_stable :
    ∀ (fundOf : String → FundamentalMetrics) (barsOf : String → List Row)
      (symbols : List String),
      (screen_stocks fundOf barsOf symbols).Pairwise
        (fun a b => b.overall_score ≤ a.overall_score)
      ∧ ∀ s : ℚ,
          (screen_stocks fundOf barsOf symbols).filter
            (fun a => decide (a.overall_score = s))
          = ((symbols.map (fun sym => analyze_stock sym (fundOf sym) (barsOf sym))).filter
              passesScreen).filter (fun a => decide (a.overall_score = s)) := by
  intro fundOf barsOf symbols
  unfold screen_stocks
  set L := (symbols.map (fun sym => analyze_stock sym (fundOf sym) (barsOf sym))).filter
    passesScreen with hLdef
  constructor
  · exact List.sorted_insertionSort byScoreDesc L
  · intro s
    set p : StockAnalysis → Bool := fun a => decide (a.overall_score = s) with hp
    have hmemp : ∀ a ∈ L.filter p, p a = true := fun a ha => List.of_mem_filter ha
    have hpair : (L.filter p).Pairwise byScoreDesc := by
      refine List.pairwise_of_forall_mem_list ?_
      intro a ha b hb
      have hsa : a.overall_score = s := of_decide_eq_true (hmemp a ha)
      have hsb : b.overall_score = s := of_decide_eq_true (hmemp b hb)
      show b.overall_score ≤ a.overall_score
      rw [hsa, hsb]
    have h1 : L.filter p <+ L.insertionSort byScoreDesc :=
      List.sublist_insertionSort hpair (List.filter_sublist L)
    have h2 : L.filter p <+ (L.insertionSort byScoreDesc).filter p := by
      have h' := h1.filter p
      rwa [List.filter_eq_self.mpr hmemp] at h'
    have h3 : ((L.insertionSort byScoreDesc).filter p).length = (L.filter p).length :=
      ((List.perm_insertionSort byScoreDesc L).filter p).length_eq
    exact (h2.eq_of_length h3.symm).symm

/-- C6: every analysis the screener returns passes all three gates —
market cap at least the configured minimum, volume at least the configured
minimum, and overall score at least 60. -/
theorem C6_screen_gates :
    ∀ (fundOf : String → FundamentalMetrics) (barsOf : String → List Row)
      (symbols : List String) (a : StockAnalysis),
      a ∈ screen_stocks fundOf barsOf symbols →
      min_market_cap ≤ a.fundamental_data.market_cap
      ∧ min_volume ≤ a.fundamental_data.volume
      ∧ (60:ℚ) ≤ a.overall_score := by
  intro fundOf barsOf symbols a ha
  unfold screen_stocks at ha
  have hmem := List.mem_insertionSort byScoreDesc |>.1 ha
  have hpass : passesScreen a = true := List.of_mem_filter hmem
  simp only [passesScreen, Bool.and_eq_true, decide_eq_true_eq] at hpass
  exact ⟨hpass.1.1, hpass.1.2, hpass.2⟩

/-- A fundamentals snapshot whose every bucket pays 100 points, with market
cap and volume above the configured minima. -/
def fundX : FundamentalMetrics :=
  { market_cap := 2000000000, pe_ratio := 10, price_to_book := 1/2,
    debt_to_equity := 0, current_ratio := 3, roe := 1/4, roa := 3/20,
    profit_margins := 1/4, revenue_growth := 1/4, earnings_growth := 1/4,
    beta := 1, volume := 2000000 }

/-- C6 witness: a one-symbol screen whose analysis (fundamental score 100,
technical score 0 on a 1-bar history, overall 60) passes the gates. -/
theorem C6_screen_gates_witness :
    min_market_cap
      ≤ (analyze_stock "AAA" fundX [rowDefault]).fundamental_data.market_cap
    ∧ min_volume ≤ (analyze_stock "AAA" fundX [rowDefault]).fundamental_data.volume
    ∧ (60:ℚ) ≤ (analyze_stock "AAA" fundX [rowDefault]).overall_score := by
  refine C6_screen_gates (fun _ => fundX) (fun _ => [rowDefault]) ["AAA"]
    (analyze_stock "AAA" fundX [rowDefault]) ?_
  have hpass : passesScreen (analyze_stock "AAA" fundX [rowDefault]) = true := by
    norm_num [passesScreen, analyze_stock, fundamental_score, technical_score,
      fundX, min_market_cap, min_volume, score_pe_ratio, score_price_to_book,
      score_debt_to_equity, score_current_ratio, score_roe, score_roa,
      score_profit_margin, score_growth, score_beta]
  simp [screen_stocks, hpass, List.insertionSort, List.orderedInsert]
